import Mathlib

/-!
Shallow embedding of the MAAS node lifecycle core
(`src/maasserver/models/node.py`): the node status state machine,
batch power orchestration, static address claiming, deletion with
host-map withdrawal, failure marking and power-state updates.

Machinery that lives in the repository but outside the provided
sources (the `NODE_TRANSITIONS` adjacency table, `get_failed_status`
and `is_failed_status` from `maasserver/node_status.py`, the
`QUERY_POWER_TYPES` registry, the `CleanSave` validate-on-save
behaviour and the `@asynchronous(timeout=30)` wrapper) is modelled
from the specification, as marked on each such definition.
-/

/-- Node lifecycle statuses, per the `NODE_STATUS` vocabulary used by
`node.py` (the enum module itself is not among the provided sources; the
constructor set is the status list of the specification, section 4.1). -/
inductive NodeStatus where
  | NEW
  | COMMISSIONING
  | FAILED_COMMISSIONING
  | MISSING
  | READY
  | RESERVED
  | ALLOCATED
  | DEPLOYING
  | DEPLOYED
  | RETIRED
  | BROKEN
  | FAILED_DEPLOYMENT
  | RELEASING
  | FAILED_RELEASING
  | DISK_ERASING
  | FAILED_DISK_ERASING
  deriving DecidableEq, Repr

/-- Physical power states, per the `POWER_STATE` vocabulary
(`on` / `off` / `unknown`). -/
inductive PowerState where
  | on
  | off
  | unknown
  deriving DecidableEq, Repr

/-- The errors raised by the embedded operations.
`NodeStateViolation` carries the (current, requested) pair that
`clean_status` interpolates into its message; `NodeStateViolationIn`
carries the single offending status interpolated by the other
`NodeStateViolation` raises; `MultipleFailures` carries every
individual remote failure. -/
inductive MaasError where
  | NodeStateViolation (current requested : NodeStatus)
  | NodeStateViolationIn (status : NodeStatus)
  | StaticIPAddressExhaustion
  | MultipleFailures (failures : List String)
  | UnknownPowerType
  deriving DecidableEq, Repr

/-- `Node.clean_status`: check a status transition against the
node-status FSM.  `old_status` is the database state, `new_status` the
in-memory one; no-change always passes, otherwise the requested status
must be in the adjacency table's successor list for the old status.
The `NODE_TRANSITIONS` table lives in `maasserver/node_status.py`
(outside the provided sources), so it is abstracted as the parameter
`transitions`. -/
def clean_status (transitions : NodeStatus → List NodeStatus)
    (old_status new_status : NodeStatus) : Except MaasError Unit :=
  if new_status = old_status then
    Except.ok ()
  else if new_status ∈ transitions old_status then
    Except.ok ()
  else
    Except.error (MaasError.NodeStateViolation old_status new_status)

/-- Modelled from the spec: `CleanSave` runs full validation (hence
`Node.clean`, hence `clean_status`) on every save, so "no direct
external mutation of `status` bypasses validation".  A successful save
returns the status actually persisted. -/
def save_status (transitions : NodeStatus → List NodeStatus)
    (old_status new_status : NodeStatus) : Except MaasError NodeStatus :=
  match clean_status transitions old_status new_status with
  | Except.ok () => Except.ok new_status
  | Except.error e => Except.error e

/-- One settled entry of the `DeferredList` that
`wait_for_power_commands` blocks on: a `(success, result)` pair.
Modelled from the spec for the timeout aspect: the wait is bounded
(`@asynchronous(timeout=30)`, a wrapper outside the provided sources)
and a dispatch that times out surfaces as a failed entry collected
into the aggregate. -/
structure DeferredResult where
  success : Bool
  value : String
  deriving DecidableEq, Repr

/-- The timeout, in seconds, bounding the wait on a batch of power
command deferreds (`@asynchronous(timeout=30)`). -/
def power_commands_timeout : Nat := 30

/-- `wait_for_power_commands`: wait for a collection of power command
deferreds to return or fail; collect the failures and raise
`MultipleFailures` carrying all of them if there was at least one. -/
def wait_for_power_commands (results : List DeferredResult) :
    Except MaasError Unit :=
  let failures := (results.filter fun r => !r.success).map DeferredResult.value
  if failures.length ≠ 0 then
    Except.error (MaasError.MultipleFailures failures)
  else
    Except.ok ()

/-- The answer the Address Allocator gives for one node's MAC:
`MACAddress.claim_static_ips()` (a model outside the provided sources)
either raises `StaticIPAddressTypeClash`, raises exhaustion, or
atomically returns the full list of claimed addresses. -/
inductive AllocOutcome where
  | clash
  | exhausted
  | ok (ips : List String)
  deriving DecidableEq, Repr

/-- The node record, with the fields of `Node` that the embedded
operations read or write.  `alloc_outcome` is the Address Allocator's
(external collaborator) response for this node's PXE MAC, and
`pxe_mac_managed` is whether the PXE MAC sits on a managed cluster
interface. -/
structure MNode where
  system_id : String
  hostname : String
  status : NodeStatus
  owner : Option String
  power_type : String
  power_parameters : List (String × String)
  power_state : PowerState
  pxe_mac : Option String
  macaddress_set : List String
  pxe_mac_managed : Bool
  alloc_outcome : AllocOutcome
  netboot : Bool
  error_description : String
  nodegroup : String
  deriving DecidableEq, Repr

/-- `Node.get_pxe_mac`: the `pxe_mac` recorded at last PXE boot, falling
back to the node's first (earliest-registered) MAC address. -/
def get_pxe_mac (n : MNode) : Option String :=
  match n.pxe_mac with
  | some m => some m
  | none => n.macaddress_set.head?

/-- `Node.get_primary_mac`: the earliest-created MAC address of the
node, if any. -/
def get_primary_mac (n : MNode) : Option String :=
  n.macaddress_set.head?

/-- `Node.is_pxe_mac_on_managed_interface`: false when the node has no
PXE MAC, otherwise whether that MAC's cluster interface is managed. -/
def is_pxe_mac_on_managed_interface (n : MNode) : Bool :=
  match get_pxe_mac n with
  | some _ => n.pxe_mac_managed
  | none => false

/-- `Node.claim_static_ip_addresses`: assign static IPs to the node's
PXE MAC.  No PXE MAC: empty claim.  A `StaticIPAddressTypeClash` from
the allocator: empty claim.  Exhaustion propagates.  Otherwise the
full list of `(ip, mac)` pairs is returned (all-or-nothing, inside one
atomic transaction). -/
def claim_static_ip_addresses (n : MNode) :
    Except MaasError (List (String × String)) :=
  match get_pxe_mac n with
  | none => Except.ok []
  | some mac =>
    match n.alloc_outcome with
    | AllocOutcome.clash => Except.ok []
    | AllocOutcome.exhausted => Except.error MaasError.StaticIPAddressExhaustion
    | AllocOutcome.ok ips => Except.ok (ips.map fun ip => (ip, mac))

/-- Python `dict.setdefault` on an association list: add the pair only
when the key is absent. -/
def dict_setdefault (params : List (String × String)) (key val : String) :
    List (String × String) :=
  if (params.lookup key).isSome then params else params ++ [(key, val)]

/-- Python `d[key] = val` on an association list: the new binding
shadows any previous one. -/
def dict_set (params : List (String × String)) (key val : String) :
    List (String × String) :=
  (key, val) :: params.filter fun p => p.1 ≠ key

/-- `Node.get_effective_power_parameters`: the stored power parameters
with the call-time defaults applied — tool paths, `power_address`
(virsh gets a qemu default), credentials, `mac_address` defaulting to
the primary MAC when one exists, and `boot_mode` derived from the
lifecycle status (`local` when deployed, else `pxe`). -/
def get_effective_power_parameters (n : MNode) : List (String × String) :=
  let pp := n.power_parameters
  let pp := dict_setdefault pp "system_id" n.system_id
  let pp := dict_setdefault pp "fence_cdu" "/usr/sbin/fence_cdu"
  let pp := dict_setdefault pp "ipmipower" "/usr/sbin/ipmipower"
  let pp := dict_setdefault pp "ipmitool" "/usr/bin/ipmitool"
  let pp := dict_setdefault pp "ipmi_chassis_config" "/usr/sbin/ipmi-chassis-config"
  let pp := dict_setdefault pp "ipmi_config" "ipmi.conf"
  let pp :=
    if n.power_type = "virsh" then
      dict_setdefault pp "power_address" "qemu://localhost/system"
    else
      dict_setdefault pp "power_address" ""
  let pp := dict_setdefault pp "username" ""
  let pp := dict_setdefault pp "power_id" n.system_id
  let pp := dict_setdefault pp "power_driver" ""
  let pp := dict_setdefault pp "power_pass" ""
  let pp := dict_setdefault pp "power_off_mode" ""
  let pp :=
    if (pp.lookup "mac_address").isSome then pp
    else
      match get_primary_mac n with
      | some mac => pp ++ [("mac_address", mac)]
      | none => pp
  if n.status = NodeStatus.DEPLOYED then
    dict_set pp "boot_mode" "local"
  else
    dict_set pp "boot_mode" "pxe"

/-- `Node.get_effective_power_type`: the stored power type, or
`UnknownPowerType` when it is unconfigured (the empty string). -/
def get_effective_power_type (n : MNode) : Except MaasError String :=
  if n.power_type = "" then
    Except.error MaasError.UnknownPowerType
  else
    Except.ok n.power_type

/-- Return type of `get_effective_power_info` (the `PowerInfo`
namedtuple). -/
structure PowerInfo where
  can_be_started : Bool
  can_be_stopped : Bool
  can_be_queried : Bool
  power_type : Option String
  power_parameters : Option (List (String × String))
  deriving DecidableEq, Repr

/-- `Node.get_effective_power_info`: hints on whether this node's power
can be controlled.  An unrecognised (unconfigured) power type yields
all-false without raising; `ether_wake` can be started only with a
configured MAC address and can never be stopped; queryability is
membership in the `QUERY_POWER_TYPES` registry
(`provisioningserver/rpc/power.py`, outside the provided sources,
abstracted as the parameter `query_power_types`). -/
def get_effective_power_info (query_power_types : List String)
    (n : MNode) : PowerInfo :=
  let power_params := get_effective_power_parameters n
  match get_effective_power_type n with
  | Except.error _ => ⟨false, false, false, none, none⟩
  | Except.ok power_type =>
    let started_stopped :=
      if power_type = "ether_wake" then
        let mac := power_params.lookup "mac_address"
        (decide (mac ≠ some "" ∧ mac ≠ none), false)
      else
        (true, true)
    ⟨started_stopped.1, started_stopped.2,
      query_power_types.contains power_type, some power_type,
      some power_params⟩

/-- `Node.start_deployment`: mark the node as being deployed (the
status is saved and committed; the transition monitor RPC that follows
is non-fatal and does not alter the record). -/
def start_deployment (n : MNode) : MNode :=
  { n with status := NodeStatus.DEPLOYING }

/-- The address-claiming loop at the head of `NodeManager.start_nodes`:
for each node in order, an allocated node has static addresses claimed,
its claims added to the static mappings when its PXE MAC is on a
managed interface, and is recorded as deploying.  An exception from
claiming propagates at once: the failing node and every node after it
are left untouched.  Returns the per-node final states, the
accumulated static mappings and the propagated error, if any. -/
def start_nodes_claim_loop :
    List MNode → List MNode × List (String × String) × Option MaasError
  | [] => ([], [], none)
  | n :: rest =>
    if n.status = NodeStatus.ALLOCATED then
      match claim_static_ip_addresses n with
      | Except.error e => (n :: rest, [], some e)
      | Except.ok claims =>
        let maps := if is_pxe_mac_on_managed_interface n then claims else []
        let n' := start_deployment n
        let step := start_nodes_claim_loop rest
        (n' :: step.1, maps ++ step.2.1, step.2.2)
    else
      let step := start_nodes_claim_loop rest
      (n :: step.1, step.2.1, step.2.2)

/-- `NodeManager.start_nodes`: claim addresses and record deployment
for allocated nodes, push the accumulated host maps (`update_host_maps`
is remote code outside the provided sources, abstracted as the oracle
`uhm` from mappings to failures), raise `MultipleFailures` when any
host-map update failed, then dispatch power-on for every node whose
power info says it can be started (`power_outcome` is the remote
gateway's settled answer per system id) and wait on all of them.
Returns the nodes for which power was actually requested. -/
def start_nodes (query_power_types : List String)
    (uhm : List (String × String) → List String)
    (power_outcome : String → DeferredResult)
    (nodes : List MNode) : Except MaasError (List MNode) :=
  let step := start_nodes_claim_loop nodes
  match step.2.2 with
  | some e => Except.error e
  | none =>
    let nodes1 := step.1
    let update_host_maps_failures := uhm step.2.1
    if update_host_maps_failures.length ≠ 0 then
      Except.error (MaasError.MultipleFailures update_host_maps_failures)
    else
      let start_info := nodes1.filter fun n =>
        (get_effective_power_info query_power_types n).can_be_started
      let powered_systems := start_info.map fun n => n.system_id
      match wait_for_power_commands (powered_systems.map power_outcome) with
      | Except.error e => Except.error e
      | Except.ok () =>
        Except.ok (nodes1.filter fun n => powered_systems.contains n.system_id)

/-- `NodeManager.stop_nodes`: dispatch power-off for every node whose
power info says it can be stopped, smuggling the stop mode into each
directive's parameters, and wait on all dispatches.  Returns the nodes
for which power-off was actually requested. -/
def stop_nodes (query_power_types : List String)
    (power_outcome : String → DeferredResult)
    (stop_mode : String) (nodes : List MNode) :
    Except MaasError (List MNode) :=
  let stop_info := (nodes.filter fun n =>
      (get_effective_power_info query_power_types n).can_be_stopped).map
    fun n =>
      (n, dict_set (get_effective_power_parameters n) "power_off_mode" stop_mode)
  let powered_systems := stop_info.map fun i => i.1.system_id
  match wait_for_power_commands (powered_systems.map power_outcome) with
  | Except.error e => Except.error e
  | Except.ok () =>
    Except.ok (nodes.filter fun n => powered_systems.contains n.system_id)

/-- `Node.start_commissioning`: hang on to the old status, mark the
node COMMISSIONING (saved and committed), then start it via
`NodeManager.start_nodes`; on any exception the status is set back to
the old value, re-saved and committed, and the exception re-raised.
Returns the persisted node together with the propagated error, if
any. -/
def start_commissioning (query_power_types : List String)
    (uhm : List (String × String) → List String)
    (power_outcome : String → DeferredResult)
    (n : MNode) : MNode × Option MaasError :=
  let old_status := n.status
  let n1 : MNode := { n with status := NodeStatus.COMMISSIONING }
  match start_nodes query_power_types uhm power_outcome [n1] with
  | Except.error e => ({ n1 with status := old_status }, some e)
  | Except.ok _ => (n1, none)

/-- `Node.accept_enlistment`: a node already READY or COMMISSIONING
yields `ok false` (the Python `None` return); a node in any other
non-NEW state raises `NodeStateViolation`; a NEW node goes through
`start_commissioning`, whose exception propagates, and on success the
node itself is returned (`ok true`). -/
def accept_enlistment (query_power_types : List String)
    (uhm : List (String × String) → List String)
    (power_outcome : String → DeferredResult)
    (n : MNode) : MNode × Except MaasError Bool :=
  if n.status = NodeStatus.READY ∨ n.status = NodeStatus.COMMISSIONING then
    (n, Except.ok false)
  else if n.status ≠ NodeStatus.NEW then
    (n, Except.error (MaasError.NodeStateViolationIn n.status))
  else
    match start_commissioning query_power_types uhm power_outcome n with
    | (n', some e) => (n', Except.error e)
    | (n', none) => (n', Except.ok true)

/-- `Node.start_disk_erasing`: mark the node DISK_ERASING (saved and
committed), then start it; on any exception the node is moved to
FAILED_DISK_ERASING — not back to its previous state — saved,
committed, and the exception re-raised. -/
def start_disk_erasing (query_power_types : List String)
    (uhm : List (String × String) → List String)
    (power_outcome : String → DeferredResult)
    (n : MNode) : MNode × Option MaasError :=
  let n1 : MNode := { n with status := NodeStatus.DISK_ERASING }
  match start_nodes query_power_types uhm power_outcome [n1] with
  | Except.error e =>
    ({ n1 with status := NodeStatus.FAILED_DISK_ERASING }, some e)
  | Except.ok _ => (n1, none)

/-- `Node.delete_host_maps`: when the IP set is non-empty, one removal
RPC round is made (`remove_host_maps` is remote code outside the
provided sources; `remove_failures` is its settled failure list) and
`MultipleFailures` is raised when any removal failed. -/
def delete_host_maps (for_ips : List String)
    (remove_failures : List String) : Except MaasError Unit :=
  if for_ips.length > 0 then
    if remove_failures.length ≠ 0 then
      Except.error (MaasError.MultipleFailures remove_failures)
    else
      Except.ok ()
  else
    Except.ok ()

/-- Outcome of `Node.delete`, recording which side effects happened:
whether the node row itself was removed, whether its static IPs were
deleted, whether its MAC addresses were deleted, and the raised error,
if any. -/
structure DeleteResult where
  node_deleted : Bool
  static_ips_deleted : Bool
  macs_deleted : Bool
  error : Option MaasError
  deriving DecidableEq, Repr

/-- `Node.delete`: an allocated node cannot be deleted — the violation
is raised first, before any side effect.  Otherwise the node's static
IPs are deleted, host maps for the static and leased IPs are withdrawn
(failures raise `MultipleFailures`, leaving the node row and MACs in
place), and only then are the MAC addresses and the node row removed. -/
def delete (n : MNode) (static_ips leased_ips : List String)
    (remove_failures : List String) : DeleteResult :=
  if n.status = NodeStatus.ALLOCATED then
    ⟨false, false, false, some (MaasError.NodeStateViolationIn n.status)⟩
  else
    match delete_host_maps (static_ips ++ leased_ips) remove_failures with
    | Except.error e => ⟨false, true, false, some e⟩
    | Except.ok () => ⟨true, true, true, none⟩

/-- Modelled from the spec: `get_failed_status` from
`maasserver/node_status.py` (outside the provided sources) maps an
in-progress status to its failure counterpart and every other status
to none. -/
def get_failed_status : NodeStatus → Option NodeStatus
  | NodeStatus.COMMISSIONING => some NodeStatus.FAILED_COMMISSIONING
  | NodeStatus.DEPLOYING => some NodeStatus.FAILED_DEPLOYMENT
  | NodeStatus.RELEASING => some NodeStatus.FAILED_RELEASING
  | NodeStatus.DISK_ERASING => some NodeStatus.FAILED_DISK_ERASING
  | _ => none

/-- Modelled from the spec: `is_failed_status` from
`maasserver/node_status.py` (outside the provided sources) is true
exactly for the failed-* statuses. -/
def is_failed_status (s : NodeStatus) : Bool :=
  s = NodeStatus.FAILED_COMMISSIONING ∨
  s = NodeStatus.FAILED_DEPLOYMENT ∨
  s = NodeStatus.FAILED_RELEASING ∨
  s = NodeStatus.FAILED_DISK_ERASING

/-- `Node.mark_failed`: move the node to the failure counterpart of its
current status and record the error description; silently ignore the
request when the node is already in a failed status; otherwise raise
`NodeStateViolation`. -/
def mark_failed (n : MNode) (error_description : String) :
    MNode × Option MaasError :=
  match get_failed_status n.status with
  | some new_status =>
    ({ n with status := new_status, error_description := error_description },
      none)
  | none =>
    if is_failed_status n.status then
      (n, none)
    else
      (n, some (MaasError.NodeStateViolationIn n.status))

/-- `Node.update_power_state`: record the observed power state; when
the node was RELEASING and the observed state is off, additionally
mark it READY and clear the owner. -/
def update_power_state (n : MNode) (power_state : PowerState) : MNode :=
  let n1 : MNode := { n with power_state := power_state }
  if n1.status = NodeStatus.RELEASING ∧ power_state = PowerState.off then
    { n1 with status := NodeStatus.READY, owner := none }
  else
    n1

/-- A fixed adjacency table used to witness the state-machine claims
at concrete inputs. -/
def c1_table : NodeStatus → List NodeStatus := fun s =>
  if s = NodeStatus.READY then [NodeStatus.ALLOCATED] else []

/-- C1: for every pair of statuses, validating a transition succeeds
iff the requested status equals the current one or is in the adjacency
table's successor set for the current one; every other pair fails with
an error naming the current and requested statuses; and a save never
persists a status that bypasses this validation. -/
theorem clean_status_spec (transitions : NodeStatus → List NodeStatus)
    (current requested : NodeStatus) :
    (clean_status transitions current requested = Except.ok () ↔
      requested = current ∨ requested ∈ transitions current) ∧
    (requested ≠ current → requested ∉ transitions current →
      clean_status transitions current requested =
        Except.error (MaasError.NodeStateViolation current requested)) ∧
    (∀ s, save_status transitions current requested = Except.ok s →
      s = requested ∧ (s = current ∨ s ∈ transitions current)) := by
  refine ⟨?_, ?_, ?_⟩
  · constructor
    · intro h
      by_cases h1 : requested = current
      · exact Or.inl h1
      · by_cases h2 : requested ∈ transitions current
        · exact Or.inr h2
        · simp [clean_status, h1, h2] at h
    · rintro (h | h)
      · simp [clean_status, h]
      · by_cases h1 : requested = current <;> simp [clean_status, h1, h]
  · intro h1 h2
    simp [clean_status, h1, h2]
  · intro s hs
    by_cases h1 : requested = current
    · simp only [save_status, clean_status, if_pos h1] at hs
      cases hs
      exact ⟨rfl, Or.inl h1⟩
    · by_cases h2 : requested ∈ transitions current
      · simp only [save_status, clean_status, if_neg h1, if_pos h2] at hs
        cases hs
        exact ⟨rfl, Or.inr h2⟩
      · simp [save_status, clean_status, h1, h2] at hs

/-- Witness for C1 at concrete inputs: under `c1_table`, READY may move
to ALLOCATED, while READY to DEPLOYED fails naming both statuses. -/
theorem clean_status_spec_witness :
    clean_status c1_table NodeStatus.READY NodeStatus.ALLOCATED = Except.ok () ∧
    clean_status c1_table NodeStatus.READY NodeStatus.DEPLOYED =
      Except.error
        (MaasError.NodeStateViolation NodeStatus.READY NodeStatus.DEPLOYED) := by
  constructor
  · exact (clean_status_spec c1_table NodeStatus.READY NodeStatus.ALLOCATED).1.mpr
      (Or.inr (by decide))
  · exact (clean_status_spec c1_table NodeStatus.READY NodeStatus.DEPLOYED).2.1
      (by decide) (by decide)

/-- C2: the batch power wait uses a single bounded 30-second timeout,
raises an error iff at least one dispatch entry failed (a timed-out
dispatch having settled as a failed entry), every raised error is the
aggregate carrying every individual failure, and the aggregate is
computed from the entire settled list (never fail-fast). -/
theorem wait_for_power_commands_spec (results : List DeferredResult) :
    power_commands_timeout = 30 ∧
    (wait_for_power_commands results = Except.ok () ↔
      ∀ r ∈ results, r.success = true) ∧
    ((∃ e, wait_for_power_commands results = Except.error e) ↔
      ∃ r ∈ results, r.success = false) ∧
    (∀ e, wait_for_power_commands results = Except.error e →
      e = MaasError.MultipleFailures
        ((results.filter fun r => !r.success).map DeferredResult.value)) := by
  have hnil : (results.filter fun r => !r.success) = [] ↔
      ∀ r ∈ results, r.success = true := by
    rw [List.filter_eq_nil_iff]
    constructor
    · intro h r hr
      have := h r hr
      simpa using this
    · intro h r hr
      simp [h r hr]
  refine ⟨rfl, ?_, ?_, ?_⟩
  · simp only [wait_for_power_commands]
    split_ifs with h
    · simp only [ne_eq, List.length_eq_zero, List.map_eq_nil_iff] at h
      constructor
      · intro hc
        exact absurd hc (by simp)
      · intro hall
        exact absurd (hnil.mpr hall) h
    · simp only [ne_eq, not_not, List.length_eq_zero, List.map_eq_nil_iff] at h
      simp only [true_iff]
      exact hnil.mp h
  · simp only [wait_for_power_commands]
    split_ifs with h
    · simp only [ne_eq, List.length_eq_zero, List.map_eq_nil_iff] at h
      constructor
      · intro _
        rcases List.exists_mem_of_ne_nil _ h with ⟨r, hr⟩
        rw [List.mem_filter] at hr
        exact ⟨r, hr.1, by simpa using hr.2⟩
      · intro _
        exact ⟨_, rfl⟩
    · simp only [ne_eq, not_not, List.length_eq_zero, List.map_eq_nil_iff] at h
      constructor
      · rintro ⟨e, he⟩
        cases he
      · rintro ⟨r, hr, hs⟩
        have := hnil.mp h r hr
        rw [this] at hs
        cases hs
  · intro e
    simp only [wait_for_power_commands]
    split_ifs with h
    · intro he
      cases he
      rfl
    · intro he
      cases he

/-- Witness for C2 at a concrete input: one success and one failure
settle into an aggregate carrying exactly the one failure. -/
theorem wait_for_power_commands_spec_witness :
    wait_for_power_commands [⟨true, "ok"⟩, ⟨false, "boom"⟩] =
      Except.error (MaasError.MultipleFailures ["boom"]) := by
  have h := (wait_for_power_commands_spec [⟨true, "ok"⟩, ⟨false, "boom"⟩]).2.2
  rcases h.1.mpr ⟨⟨false, "boom"⟩, by simp, rfl⟩ with ⟨e, he⟩
  have := h.2 e he
  rw [he, this]
  rfl

/-- C8: claiming returns an empty claim without error when the node has
no PXE (or fallback) MAC and on an address-type clash; in every other
successful case the node receives the full requested set of
`(ip, mac)` pairs — the result is all-or-nothing, never a partial
subset. -/
theorem claim_static_ip_addresses_spec (n : MNode) :
    (get_pxe_mac n = none → claim_static_ip_addresses n = Except.ok []) ∧
    (n.alloc_outcome = AllocOutcome.clash →
      claim_static_ip_addresses n = Except.ok []) ∧
    (get_pxe_mac n ≠ none → n.alloc_outcome = AllocOutcome.exhausted →
      claim_static_ip_addresses n =
        Except.error MaasError.StaticIPAddressExhaustion) ∧
    (∀ res, claim_static_ip_addresses n = Except.ok res →
      res = [] ∨ ∃ mac ips, get_pxe_mac n = some mac ∧
        n.alloc_outcome = AllocOutcome.ok ips ∧
        res = ips.map fun ip => (ip, mac)) := by
  refine ⟨?_, ?_, ?_, ?_⟩
  · intro h
    simp [claim_static_ip_addresses, h]
  · intro h
    cases hm : get_pxe_mac n <;>
      simp [claim_static_ip_addresses, hm, h]
  · intro h1 h2
    cases hm : get_pxe_mac n
    · exact absurd hm h1
    · simp [claim_static_ip_addresses, hm, h2]
  · intro res hres
    cases hm : get_pxe_mac n
    · simp only [claim_static_ip_addresses, hm] at hres
      cases hres
      exact Or.inl rfl
    · cases ha : n.alloc_outcome
      · simp only [claim_static_ip_addresses, hm, ha] at hres
        cases hres
        exact Or.inl rfl
      · simp [claim_static_ip_addresses, hm, ha] at hres
      · rename_i ips
        simp only [claim_static_ip_addresses, hm, ha, Except.ok.injEq] at hres
        exact Or.inr ⟨_, ips, rfl, rfl, hres.symm⟩

/-- Witness for C8 at concrete inputs: a node with no MAC claims
nothing without error; a node with a clash claims nothing; a node with
a two-address allocation receives exactly both pairs. -/
theorem claim_static_ip_addresses_spec_witness :
    claim_static_ip_addresses
      ⟨"n0", "h0", NodeStatus.ALLOCATED, none, "ipmi", [],
        PowerState.unknown, none, [], false, AllocOutcome.exhausted,
        true, "", "ng"⟩ = Except.ok [] ∧
    claim_static_ip_addresses
      ⟨"n1", "h1", NodeStatus.ALLOCATED, none, "ipmi", [],
        PowerState.unknown, some "aa:01", [], false, AllocOutcome.clash,
        true, "", "ng"⟩ = Except.ok [] ∧
    claim_static_ip_addresses
      ⟨"n2", "h2", NodeStatus.ALLOCATED, none, "ipmi", [],
        PowerState.unknown, some "aa:02", [], false,
        AllocOutcome.ok ["10.0.0.5", "10.0.0.6"], true, "", "ng"⟩ =
      Except.ok [("10.0.0.5", "aa:02"), ("10.0.0.6", "aa:02")] := by
  refine ⟨?_, ?_, ?_⟩
  · exact (claim_static_ip_addresses_spec _).1 rfl
  · exact (claim_static_ip_addresses_spec _).2.1 rfl
  · have h := (claim_static_ip_addresses_spec
      ⟨"n2", "h2", NodeStatus.ALLOCATED, none, "ipmi", [],
        PowerState.unknown, some "aa:02", [], false,
        AllocOutcome.ok ["10.0.0.5", "10.0.0.6"], true, "", "ng"⟩).2.2.1
    rfl

/-- Reduction of `get_effective_power_info` for the wake-on-LAN-only
power type. -/
theorem get_effective_power_info_ether_wake (query_power_types : List String)
    (n : MNode) (h : n.power_type = "ether_wake") :
    get_effective_power_info query_power_types n =
      ⟨decide ((get_effective_power_parameters n).lookup "mac_address" ≠ some "" ∧
          (get_effective_power_parameters n).lookup "mac_address" ≠ none),
        false, query_power_types.contains "ether_wake", some "ether_wake",
        some (get_effective_power_parameters n)⟩ := by
  simp [get_effective_power_info, get_effective_power_type, h]

/-- C9: an unconfigured power type yields all-false power info without
raising; queryability is exactly membership in the fixed registry; the
wake-on-LAN-only type can never be stopped and can be started iff a
non-empty MAC address is configured in the effective parameters. -/
theorem get_effective_power_info_spec (query_power_types : List String)
    (n : MNode) :
    (n.power_type = "" →
      get_effective_power_info query_power_types n =
        ⟨false, false, false, none, none⟩) ∧
    (n.power_type ≠ "" →
      ((get_effective_power_info query_power_types n).can_be_queried = true ↔
        n.power_type ∈ query_power_types)) ∧
    (n.power_type = "ether_wake" →
      (get_effective_power_info query_power_types n).can_be_stopped = false ∧
      ((get_effective_power_info query_power_types n).can_be_started = true ↔
        ∃ mac, (get_effective_power_parameters n).lookup "mac_address" =
          some mac ∧ mac ≠ "")) := by
  refine ⟨?_, ?_, ?_⟩
  · intro h
    simp [get_effective_power_info, get_effective_power_type, h]
  · intro h
    simp only [get_effective_power_info, get_effective_power_type, if_neg h]
    exact List.elem_iff
  · intro h
    have hne : n.power_type ≠ "" := by
      rw [h]
      decide
    rw [get_effective_power_info_ether_wake query_power_types n h]
    refine ⟨rfl, ?_⟩
    cases hl : (get_effective_power_parameters n).lookup "mac_address" <;> simp

/-- Witness for C9 at concrete inputs: an unconfigured node yields
all-false info; an `ether_wake` node with a stored MAC can be started
but never stopped; an `ipmi` node is queryable exactly per the
registry. -/
theorem get_effective_power_info_spec_witness :
    get_effective_power_info ["ipmi"]
      ⟨"n0", "h0", NodeStatus.READY, none, "", [], PowerState.unknown,
        none, [], false, AllocOutcome.clash, true, "", "ng"⟩ =
      ⟨false, false, false, none, none⟩ ∧
    (get_effective_power_info ["ipmi"]
      ⟨"n1", "h1", NodeStatus.READY, none, "ether_wake",
        [("mac_address", "aa:bb")], PowerState.unknown, none, [], false,
        AllocOutcome.clash, true, "", "ng"⟩).can_be_stopped = false ∧
    (get_effective_power_info ["ipmi"]
      ⟨"n1", "h1", NodeStatus.READY, none, "ether_wake",
        [("mac_address", "aa:bb")], PowerState.unknown, none, [], false,
        AllocOutcome.clash, true, "", "ng"⟩).can_be_started = true ∧
    (get_effective_power_info ["ipmi"]
      ⟨"n2", "h2", NodeStatus.READY, none, "ipmi", [], PowerState.unknown,
        none, [], false, AllocOutcome.clash, true, "", "ng"⟩).can_be_queried =
      true := by
  refine ⟨?_, ?_, ?_, ?_⟩
  · exact (get_effective_power_info_spec ["ipmi"] _).1 rfl
  · exact ((get_effective_power_info_spec ["ipmi"] _).2.2 rfl).1
  · exact ((get_effective_power_info_spec ["ipmi"] _).2.2 rfl).2.mpr
      ⟨"aa:bb", by decide, by decide⟩
  · exact ((get_effective_power_info_spec ["ipmi"] _).2.1 (by decide)).mpr
      (by decide)

/-- C10: updating the power state always records the reported state;
exactly when the node was RELEASING and the reported state is off, the
status becomes READY and the owner is cleared; in every other case the
status and owner — and in all cases every other field — are left
unchanged. -/
theorem update_power_state_spec (n : MNode) (p : PowerState) :
    (update_power_state n p).power_state = p ∧
    (n.status = NodeStatus.RELEASING ∧ p = PowerState.off →
      (update_power_state n p).status = NodeStatus.READY ∧
      (update_power_state n p).owner = none) ∧
    (¬(n.status = NodeStatus.RELEASING ∧ p = PowerState.off) →
      (update_power_state n p).status = n.status ∧
      (update_power_state n p).owner = n.owner) ∧
    (update_power_state n p).system_id = n.system_id ∧
    (update_power_state n p).hostname = n.hostname ∧
    (update_power_state n p).power_type = n.power_type ∧
    (update_power_state n p).power_parameters = n.power_parameters ∧
    (update_power_state n p).pxe_mac = n.pxe_mac ∧
    (update_power_state n p).macaddress_set = n.macaddress_set ∧
    (update_power_state n p).pxe_mac_managed = n.pxe_mac_managed ∧
    (update_power_state n p).alloc_outcome = n.alloc_outcome ∧
    (update_power_state n p).netboot = n.netboot ∧
    (update_power_state n p).error_description = n.error_description ∧
    (update_power_state n p).nodegroup = n.nodegroup := by
  simp only [update_power_state]
  split_ifs with h <;> simp_all

/-- Witness for C10 at a concrete input: a RELEASING node observed off
becomes READY with no owner, and keeps its identity fields. -/
theorem update_power_state_spec_witness :
    (update_power_state
      ⟨"n0", "h0", NodeStatus.RELEASING, some "alice", "ipmi", [],
        PowerState.on, none, [], false, AllocOutcome.clash, true, "", "ng"⟩
      PowerState.off).status = NodeStatus.READY ∧
    (update_power_state
      ⟨"n0", "h0", NodeStatus.RELEASING, some "alice", "ipmi", [],
        PowerState.on, none, [], false, AllocOutcome.clash, true, "", "ng"⟩
      PowerState.off).owner = none := by
  exact (update_power_state_spec
      ⟨"n0", "h0", NodeStatus.RELEASING, some "alice", "ipmi", [],
        PowerState.on, none, [], false, AllocOutcome.clash, true, "", "ng"⟩
      PowerState.off).2.1 ⟨rfl, rfl⟩

/-- Failure counterparts are terminal for `mark_failed`: a failure
status has no counterpart of its own and tests as failed. -/
theorem get_failed_status_terminal (s f : NodeStatus)
    (h : get_failed_status s = some f) :
    get_failed_status f = none ∧ is_failed_status f = true := by
  cases s <;> simp only [get_failed_status] at h <;> cases h <;> decide

/-- C7: when `mark_failed` moves a node to a failure status, a second
call on the result is a silent no-op — no error, same status — so the
final failure status is the same after each call; and more generally a
node already in any failed status is left untouched without error. -/
theorem mark_failed_idempotent (n : MNode) (d d' : String) (f : NodeStatus)
    (h : get_failed_status n.status = some f) :
    mark_failed n d =
      ({ n with status := f, error_description := d }, none) ∧
    mark_failed (mark_failed n d).1 d' = ((mark_failed n d).1, none) ∧
    (mark_failed (mark_failed n d).1 d').1.status = (mark_failed n d).1.status ∧
    (∀ m : MNode, is_failed_status m.status = true →
      mark_failed m d' = (m, none)) := by
  have hterm := get_failed_status_terminal n.status f h
  have h1 : mark_failed n d =
      ({ n with status := f, error_description := d }, none) := by
    simp [mark_failed, h]
  have hall : ∀ m : MNode, is_failed_status m.status = true →
      mark_failed m d' = (m, none) := by
    intro m hm
    have hnone : get_failed_status m.status = none := by
      revert hm
      cases hs : m.status <;> simp [is_failed_status, get_failed_status]
    simp [mark_failed, hnone, hm]
  have h2 : mark_failed (mark_failed n d).1 d' = ((mark_failed n d).1, none) := by
    apply hall
    rw [h1]
    exact hterm.2
  exact ⟨h1, h2, by rw [h2], hall⟩

/-- Witness for C7 at a concrete input: a DEPLOYING node is marked
FAILED_DEPLOYMENT and a second `mark_failed` is a silent no-op leaving
the same status. -/
theorem mark_failed_idempotent_witness :
    mark_failed
      ⟨"n0", "h0", NodeStatus.DEPLOYING, some "alice", "ipmi", [],
        PowerState.on, none, [], false, AllocOutcome.clash, true, "", "ng"⟩
      "timed out" =
      (⟨"n0", "h0", NodeStatus.FAILED_DEPLOYMENT, some "alice", "ipmi", [],
        PowerState.on, none, [], false, AllocOutcome.clash, true,
        "timed out", "ng"⟩, none) ∧
    mark_failed
      ⟨"n0", "h0", NodeStatus.FAILED_DEPLOYMENT, some "alice", "ipmi", [],
        PowerState.on, none, [], false, AllocOutcome.clash, true,
        "timed out", "ng"⟩ "again" =
      (⟨"n0", "h0", NodeStatus.FAILED_DEPLOYMENT, some "alice", "ipmi", [],
        PowerState.on, none, [], false, AllocOutcome.clash, true,
        "timed out", "ng"⟩, none) := by
  have h := mark_failed_idempotent
    ⟨"n0", "h0", NodeStatus.DEPLOYING, some "alice", "ipmi", [],
      PowerState.on, none, [], false, AllocOutcome.clash, true, "", "ng"⟩
    "timed out" "again" NodeStatus.FAILED_DEPLOYMENT rfl
  exact ⟨h.1, h.2.2.2 _ rfl⟩

/-- C6: deleting an allocated node always fails with the
illegal-delete violation raised before any side effect, leaving the
record untouched; for a deletable node a failed host-map withdrawal
propagates as the aggregated failure and the node row is not
removed. -/
theorem delete_spec (n : MNode)
    (static_ips leased_ips remove_failures : List String) :
    (n.status = NodeStatus.ALLOCATED →
      delete n static_ips leased_ips remove_failures =
        ⟨false, false, false,
          some (MaasError.NodeStateViolationIn NodeStatus.ALLOCATED)⟩) ∧
    (n.status ≠ NodeStatus.ALLOCATED → static_ips ++ leased_ips ≠ [] →
      remove_failures ≠ [] →
      delete n static_ips leased_ips remove_failures =
        ⟨false, true, false,
          some (MaasError.MultipleFailures remove_failures)⟩) := by
  constructor
  · intro h
    simp [delete, h]
  · intro h1 h2 h3
    have hips : 0 < (static_ips ++ leased_ips).length :=
      List.length_pos.mpr h2
    have hrf : remove_failures.length ≠ 0 := fun hh =>
      h3 (List.length_eq_zero.mp hh)
    have hor : 0 < static_ips.length ∨ 0 < leased_ips.length := by
      simpa using hips
    simp [delete, delete_host_maps, h1, hor, hrf]

/-- Witness for C6 at concrete inputs: deleting an allocated node
fails with no side effect; deleting a ready node whose host-map
removal fails leaves the node row in place and propagates the
aggregate. -/
theorem delete_spec_witness :
    delete
      ⟨"n0", "h0", NodeStatus.ALLOCATED, some "alice", "ipmi", [],
        PowerState.on, none, [], false, AllocOutcome.clash, true, "", "ng"⟩
      ["10.0.0.7"] [] ["removal failed"] =
      ⟨false, false, false,
        some (MaasError.NodeStateViolationIn NodeStatus.ALLOCATED)⟩ ∧
    delete
      ⟨"n1", "h1", NodeStatus.READY, none, "ipmi", [],
        PowerState.on, none, [], false, AllocOutcome.clash, true, "", "ng"⟩
      ["10.0.0.7"] [] ["removal failed"] =
      ⟨false, true, false,
        some (MaasError.MultipleFailures ["removal failed"])⟩ := by
  constructor
  · exact (delete_spec _ ["10.0.0.7"] [] ["removal failed"]).1 rfl
  · exact (delete_spec _ ["10.0.0.7"] [] ["removal failed"]).2
      (by decide) (by decide) (by decide)

/-- C5: an operation that moves the node into an active interim state
and then fails to dispatch power restores and re-persists the prior
status before re-raising — commissioning start rolls back to the
pre-operation status — while disk-erasing start instead persists
FAILED_DISK_ERASING before re-raising. -/
theorem start_rollback_on_power_failure (query_power_types : List String)
    (uhm : List (String × String) → List String)
    (power_outcome : String → DeferredResult) (n : MNode) (e : MaasError) :
    (start_nodes query_power_types uhm power_outcome
        [{ n with status := NodeStatus.COMMISSIONING }] = Except.error e →
      (start_commissioning query_power_types uhm power_outcome n).1.status =
        n.status ∧
      (start_commissioning query_power_types uhm power_outcome n).2 = some e) ∧
    (start_nodes query_power_types uhm power_outcome
        [{ n with status := NodeStatus.DISK_ERASING }] = Except.error e →
      (start_disk_erasing query_power_types uhm power_outcome n).1.status =
        NodeStatus.FAILED_DISK_ERASING ∧
      (start_disk_erasing query_power_types uhm power_outcome n).2 = some e) := by
  constructor
  · intro h
    simp [start_commissioning, h]
  · intro h
    simp [start_disk_erasing, h]

/-- Remote gateway oracle that fails every power dispatch. -/
def po_fail : String → DeferredResult := fun _ => ⟨false, "PowerActionFail"⟩

/-- Remote gateway oracle that acknowledges every power dispatch. -/
def po_ok : String → DeferredResult := fun _ => ⟨true, "done"⟩

/-- Host-map oracle with no failures. -/
def uhm_none : List (String × String) → List String := fun _ => []

/-- A freshly enlisted node used to witness the lifecycle claims at
concrete inputs. -/
def c4_node : MNode :=
  ⟨"node-1", "h1", NodeStatus.NEW, none, "ipmi", [], PowerState.unknown,
    none, ["aa:bb"], false, AllocOutcome.ok ["10.0.0.5"], true, "", "ng1"⟩

/-- Witness for C5 at concrete inputs: with every power dispatch
failing, commissioning start ends back in NEW with the aggregate
re-raised, and disk-erasing start ends in FAILED_DISK_ERASING. -/
theorem start_rollback_on_power_failure_witness :
    (start_commissioning [] uhm_none po_fail c4_node).1.status =
      NodeStatus.NEW ∧
    (start_commissioning [] uhm_none po_fail c4_node).2 =
      some (MaasError.MultipleFailures ["PowerActionFail"]) ∧
    (start_disk_erasing [] uhm_none po_fail c4_node).1.status =
      NodeStatus.FAILED_DISK_ERASING ∧
    (start_disk_erasing [] uhm_none po_fail c4_node).2 =
      some (MaasError.MultipleFailures ["PowerActionFail"]) := by
  have h := start_rollback_on_power_failure [] uhm_none po_fail c4_node
    (MaasError.MultipleFailures ["PowerActionFail"])
  have h1 := h.1 rfl
  have h2 := h.2 rfl
  exact ⟨h1.1, h1.2, h2.1, h2.2⟩

/-- An allocated node for which the Address Allocator reports
exhaustion. -/
def c3_node_a : MNode :=
  ⟨"node-a", "ha", NodeStatus.ALLOCATED, some "alice", "ipmi", [],
    PowerState.unknown, some "aa:01", [], true, AllocOutcome.exhausted,
    true, "", "ng1"⟩

/-- An allocated node whose address claim succeeds. -/
def c3_node_b : MNode :=
  ⟨"node-b", "hb", NodeStatus.ALLOCATED, some "alice", "ipmi", [],
    PowerState.unknown, some "aa:02", [], true,
    AllocOutcome.ok ["10.0.0.6"], true, "", "ng1"⟩

/-- Counterexample to C3 as stated: with exhaustion on the first
allocated node, `start_nodes` propagates the exhaustion error but does
NOT continue processing the other node of the batch — the second node
is left exactly as it was, still ALLOCATED, never claimed nor recorded
as deploying. -/
theorem start_nodes_continues_after_exhaustion_refuted :
    start_nodes [] uhm_none po_ok [c3_node_a, c3_node_b] =
      Except.error MaasError.StaticIPAddressExhaustion ∧
    (start_nodes_claim_loop [c3_node_a, c3_node_b]).1 =
      [c3_node_a, c3_node_b] ∧
    c3_node_b.status = NodeStatus.ALLOCATED ∧
    start_deployment c3_node_b ≠ c3_node_b := by
  refine ⟨rfl, rfl, rfl, ?_⟩
  intro h
  have := congrArg MNode.status h
  simp [start_deployment, c3_node_b] at this

/-- A node's claim stage either is skipped (not allocated) or
succeeds; used to describe the prefix of a batch before a claim
failure. -/
def claim_ok (m : MNode) : Prop :=
  m.status = NodeStatus.ALLOCATED →
    ∃ cs, claim_static_ip_addresses m = Except.ok cs

/-- The per-node effect of a successful pass of the claim loop: an
allocated node is recorded as deploying, any other node is left
alone. -/
def process_start_node (m : MNode) : MNode :=
  if m.status = NodeStatus.ALLOCATED then start_deployment m else m

/-- A head node whose claim stage does not fail passes through the
claim loop processed, leaving the tail's outcome intact. -/
theorem start_nodes_claim_loop_cons_ok (m : MNode) (rest : List MNode)
    (h : claim_ok m) :
    (start_nodes_claim_loop (m :: rest)).1 =
      process_start_node m :: (start_nodes_claim_loop rest).1 ∧
    (start_nodes_claim_loop (m :: rest)).2.2 =
      (start_nodes_claim_loop rest).2.2 := by
  by_cases hm : m.status = NodeStatus.ALLOCATED
  · obtain ⟨cs, hcs⟩ := h hm
    simp [start_nodes_claim_loop, process_start_node, hm, hcs]
  · simp [start_nodes_claim_loop, process_start_node, hm]

/-- A prefix of nodes whose claim stages do not fail is processed
node by node, and the loop's error is decided by the rest of the
batch. -/
theorem start_nodes_claim_loop_append_ok (pre rest : List MNode)
    (h : ∀ m ∈ pre, claim_ok m) :
    (start_nodes_claim_loop (pre ++ rest)).1 =
      pre.map process_start_node ++ (start_nodes_claim_loop rest).1 ∧
    (start_nodes_claim_loop (pre ++ rest)).2.2 =
      (start_nodes_claim_loop rest).2.2 := by
  induction pre with
  | nil => simp
  | cons m pre ih =>
    have hm := h m (by simp)
    have hrest : ∀ m' ∈ pre, claim_ok m' := fun m' hm' => h m' (by simp [hm'])
    obtain ⟨ih1, ih2⟩ := ih hrest
    obtain ⟨hc1, hc2⟩ :=
      start_nodes_claim_loop_cons_ok m (pre ++ rest) hm
    constructor
    · rw [List.cons_append, hc1, ih1]
      simp
    · rw [List.cons_append, hc2, ih2]

/-- A claim failure at the head of the loop propagates at once: the
failing node and everything after it are returned untouched and no
mapping is accumulated. -/
theorem start_nodes_claim_loop_error_head (m : MNode) (rest : List MNode)
    (e : MaasError) (hm : m.status = NodeStatus.ALLOCATED)
    (hc : claim_static_ip_addresses m = Except.error e) :
    start_nodes_claim_loop (m :: rest) = (m :: rest, [], some e) := by
  simp [start_nodes_claim_loop, hm, hc]

/-- C3 as amended: when the allocator reports exhaustion for an
allocated node of the batch (every node before it claiming fine), the
whole call propagates the exhaustion error; no power is dispatched for
any node — the outcome is the same for every gateway oracle — and the
nodes from the failing one onward are left exactly as they were, only
the earlier nodes keeping their already-committed deploying state. -/
theorem start_nodes_exhaustion_aborts_batch (query_power_types : List String)
    (uhm : List (String × String) → List String)
    (power_outcome : String → DeferredResult)
    (pre post : List MNode) (fnode : MNode)
    (hpre : ∀ m ∈ pre, claim_ok m)
    (hf : fnode.status = NodeStatus.ALLOCATED)
    (hfc : claim_static_ip_addresses fnode =
      Except.error MaasError.StaticIPAddressExhaustion) :
    start_nodes query_power_types uhm power_outcome (pre ++ fnode :: post) =
      Except.error MaasError.StaticIPAddressExhaustion ∧
    (start_nodes_claim_loop (pre ++ fnode :: post)).1 =
      pre.map process_start_node ++ fnode :: post ∧
    (∀ power_outcome' : String → DeferredResult,
      start_nodes query_power_types uhm power_outcome'
          (pre ++ fnode :: post) =
        Except.error MaasError.StaticIPAddressExhaustion) := by
  obtain ⟨hp1, hp2⟩ := start_nodes_claim_loop_append_ok pre (fnode :: post) hpre
  have herr := start_nodes_claim_loop_error_head fnode post
    MaasError.StaticIPAddressExhaustion hf hfc
  have h22 : (start_nodes_claim_loop (pre ++ fnode :: post)).2.2 =
      some MaasError.StaticIPAddressExhaustion := by
    rw [hp2, herr]
  refine ⟨?_, ?_, ?_⟩
  · simp [start_nodes, h22]
  · rw [hp1, herr]
  · intro power_outcome'
    simp [start_nodes, h22]

/-- Witness for the amended C3 at concrete inputs: node-b claims fine
and is recorded deploying, exhaustion on node-a then aborts the whole
call. -/
theorem start_nodes_exhaustion_aborts_batch_witness :
    start_nodes [] uhm_none po_ok [c3_node_b, c3_node_a] =
      Except.error MaasError.StaticIPAddressExhaustion ∧
    (start_nodes_claim_loop [c3_node_b, c3_node_a]).1 =
      [start_deployment c3_node_b, c3_node_a] := by
  have h := start_nodes_exhaustion_aborts_batch [] uhm_none po_ok
    [c3_node_b] [] c3_node_a
    (by
      intro m hm
      rw [List.mem_singleton] at hm
      subst hm
      exact fun _ => ⟨[("10.0.0.6", "aa:02")], rfl⟩)
    rfl rfl
  refine ⟨h.1, ?_⟩
  rw [show [c3_node_b, c3_node_a] = [c3_node_b] ++ c3_node_a :: [] from rfl,
    h.2.1]
  rfl

/-- Counterexample to C4 as stated: accepting the enlistment of a NEW
node whose power-on dispatch is reported failed by the gateway leaves
the node's final status NEW — `start_commissioning` hangs on to the
old status and restores it — not FAILED_COMMISSIONING. -/
theorem accept_enlistment_failed_commissioning_refuted :
    (accept_enlistment [] uhm_none po_fail c4_node).1.status =
      NodeStatus.NEW ∧
    (accept_enlistment [] uhm_none po_fail c4_node).2 =
      Except.error (MaasError.MultipleFailures ["PowerActionFail"]) ∧
    NodeStatus.NEW ≠ NodeStatus.FAILED_COMMISSIONING := by
  exact ⟨rfl, rfl, by decide⟩

/-- C4 as amended: for a NEW node, `accept_enlistment` moves it to
COMMISSIONING and attempts a power-on dispatch; when the gateway
reports failure for the node's cluster, the node's final status is NEW
again — rolled back to its pre-operation value, not left as
COMMISSIONING and not FAILED_COMMISSIONING — and the caller receives
the aggregated failure carrying that node's failure. -/
theorem accept_enlistment_rolls_back_on_power_failure
    (query_power_types : List String)
    (uhm : List (String × String) → List String)
    (power_outcome : String → DeferredResult) (n : MNode) (msg : String)
    (hnew : n.status = NodeStatus.NEW)
    (huhm : uhm [] = [])
    (hstart : (get_effective_power_info query_power_types
        { n with status := NodeStatus.COMMISSIONING }).can_be_started = true)
    (hpo : power_outcome n.system_id = ⟨false, msg⟩) :
    (accept_enlistment query_power_types uhm power_outcome n).1.status =
      NodeStatus.NEW ∧
    (accept_enlistment query_power_types uhm power_outcome n).2 =
      Except.error (MaasError.MultipleFailures [msg]) := by
  have hsn : start_nodes query_power_types uhm power_outcome
      [{ n with status := NodeStatus.COMMISSIONING }] =
      Except.error (MaasError.MultipleFailures [msg]) := by
    simp [start_nodes, start_nodes_claim_loop, huhm, hstart, hpo,
      wait_for_power_commands]
  have hsc : start_commissioning query_power_types uhm power_outcome n =
      ({ n with status := n.status },
        some (MaasError.MultipleFailures [msg])) := by
    simp [start_commissioning, hsn]
  simp [accept_enlistment, hnew, hsc]

/-- Witness for the amended C4 at concrete inputs: the NEW node with a
failing gateway ends NEW with the aggregate containing its failure. -/
theorem accept_enlistment_rolls_back_on_power_failure_witness :
    (accept_enlistment [] uhm_none po_fail c4_node).1.status =
      NodeStatus.NEW ∧
    (accept_enlistment [] uhm_none po_fail c4_node).2 =
      Except.error (MaasError.MultipleFailures ["PowerActionFail"]) := by
  exact accept_enlistment_rolls_back_on_power_failure [] uhm_none po_fail
    c4_node "PowerActionFail" rfl rfl rfl rfl
